import Mathlib

/-!
Verification of the adhoc migration descriptor compiler of the `wrangler`
deployment tool, together with the local dev-server address resolver.

The embedding follows `src/cli/mod.rs` (`AdhocMigration::into_migrations`)
and `src/commands/dev/server_config/mod.rs` (`ServerConfig::new`).
Rust `Vec<String>` becomes `List String`, `Option<String>` becomes
`Option String`, and a potentially panicking computation (the
`unreachable!` arms inside the chunk-mapping closures) is embedded as
`Except String`, where `Except.error msg` models a panic with that message.
-/

/-- One class rename, as assembled by the compiler.
The struct itself lives in `settings/toml/migrations` (not in the excerpt);
its field list is pinned by the construction site
`RenameClass { from, to }` in `src/cli/mod.rs`. -/
structure RenameClass where
  «from» : String
  «to» : String
deriving DecidableEq

/-- One ownership transfer of a class from another script.
Field list pinned by the construction site
`TransferClass { from, from_script, to }` in `src/cli/mod.rs`. -/
structure TransferClass where
  «from» : String
  from_script : String
  «to» : String
deriving DecidableEq

/-- One deployment's set of durable-object structural changes.
Field list pinned by the construction site in `into_migrations`. -/
structure DurableObjectsMigration where
  new_classes : List String
  deleted_classes : List String
  renamed_classes : List RenameClass
  transferred_classes : List TransferClass
deriving DecidableEq

/-- Wrapper holding one category of structural change.
Field pinned by the construction site `Migration { durable_objects }`. -/
structure Migration where
  durable_objects : DurableObjectsMigration
deriving DecidableEq

/-- Modelled from the spec: the `MigrationTag` enum is declared in
`settings/toml/migrations`, outside the excerpt.  The spec describes it as
"variant `Unknown` (client does not know the current server-side tag) or a
concrete tag string".  Only `Unknown` is ever constructed by the code under
analysis. -/
inductive MigrationTag where
  | Unknown : MigrationTag
  | Known : String → MigrationTag
deriving DecidableEq

/-- The compiled migration descriptor.  The `Migrations` enum is declared
outside the excerpt; the `Adhoc` variant's field list is pinned by the
construction site in `into_migrations` and by the unit test in
`src/cli/mod.rs`. -/
inductive Migrations where
  | Adhoc : MigrationTag → Option String → Option String → Option Migration → Migrations
deriving DecidableEq

/-- The flat, user-supplied input (`ClassChangeSet` in the spec):
`rename_class` is the flattened pair list (stride 2), `transfer_class` the
flattened triple list (stride 3). -/
structure AdhocMigration where
  new_class : List String
  delete_class : List String
  rename_class : List String
  transfer_class : List String
  old_tag : Option String
  new_tag : Option String
deriving DecidableEq

/-- Rust `slice::chunks_exact(2)`: consecutive non-overlapping chunks of
exactly two elements, in order; a trailing partial chunk is not yielded. -/
def chunksExact2 : List α → List (List α)
  | a :: b :: rest => [a, b] :: chunksExact2 rest
  | _ => []

/-- Rust `slice::chunks_exact(3)`: consecutive non-overlapping chunks of
exactly three elements, in order; a trailing partial chunk is not yielded. -/
def chunksExact3 : List α → List (List α)
  | a :: b :: c :: rest => [a, b, c] :: chunksExact3 rest
  | _ => []

/-- The closure mapped over the rename chunks: on a two-element chunk it
builds a `RenameClass`; any other shape hits the `unreachable!` arm,
embedded as `Except.error` with the source's panic message. -/
def renameOfChunk (chunk : List String) : Except String RenameClass :=
  match chunk with
  | [f, t] => Except.ok { «from» := f, «to» := t }
  | _ => Except.error "Chunks exact returned a slice with a length not equal to 2"

/-- The closure mapped over the transfer chunks: on a three-element chunk it
builds a `TransferClass`; any other shape hits the `unreachable!` arm. -/
def transferOfChunk (chunk : List String) : Except String TransferClass :=
  match chunk with
  | [fs, f, t] => Except.ok { «from» := f, from_script := fs, «to» := t }
  | _ => Except.error "Chunks exact returned a slice with a length not equal to 3"

/-- `AdhocMigration::into_migrations` from `src/cli/mod.rs`.  A value
`Except.ok r` means the Rust function returns `r` normally; `Except.error m`
would mean it panics with message `m`. -/
def AdhocMigration.into_migrations (self : AdhocMigration) :
    Except String (Option Migrations) := do
  let renamed ← (chunksExact2 self.rename_class).mapM renameOfChunk
  let transferred ← (chunksExact3 self.transfer_class).mapM transferOfChunk
  let migration : DurableObjectsMigration :=
    { new_classes := self.new_class
      deleted_classes := self.delete_class
      renamed_classes := renamed
      transferred_classes := transferred }
  let is_migration_empty := migration.new_classes.isEmpty
    && migration.deleted_classes.isEmpty
    && migration.renamed_classes.isEmpty
    && migration.transferred_classes.isEmpty
  if !is_migration_empty || self.old_tag.isSome || self.new_tag.isSome then
    let m : Option Migration :=
      if !is_migration_empty then some { durable_objects := migration } else none
    return some (Migrations.Adhoc MigrationTag.Unknown self.old_tag self.new_tag m)
  else
    return none

/-- Pure description of the pairing step: consecutive two-element groups of
the flat rename list, a trailing odd element dropped.  Used as the proved
value of the `chunksExact2`/`renameOfChunk` pipeline. -/
def renamePairs : List String → List RenameClass
  | f :: t :: rest => { «from» := f, «to» := t } :: renamePairs rest
  | _ => []

/-- Pure description of the tripling step: consecutive three-element groups
of the flat transfer list, a trailing partial group dropped. -/
def transferTriples : List String → List TransferClass
  | fs :: f :: t :: rest =>
      { «from» := f, from_script := fs, «to» := t } :: transferTriples rest
  | _ => []

/-- Pure mirror of `into_migrations`, proved equal to it below
(`into_migrations_ok`): the function never reaches its panic arms, and this
is the value it returns. -/
def compilePure (self : AdhocMigration) : Option Migrations :=
  let migration : DurableObjectsMigration :=
    { new_classes := self.new_class
      deleted_classes := self.delete_class
      renamed_classes := renamePairs self.rename_class
      transferred_classes := transferTriples self.transfer_class }
  let is_migration_empty := migration.new_classes.isEmpty
    && migration.deleted_classes.isEmpty
    && migration.renamed_classes.isEmpty
    && migration.transferred_classes.isEmpty
  if !is_migration_empty || self.old_tag.isSome || self.new_tag.isSome then
    some (Migrations.Adhoc MigrationTag.Unknown self.old_tag self.new_tag
      (if !is_migration_empty then some { durable_objects := migration } else none))
  else
    none

/-- The input with the trailing partial rename/transfer groups removed. -/
def truncateToCompleteGroups (self : AdhocMigration) : AdhocMigration :=
  { self with
    rename_class := self.rename_class.take (2 * (self.rename_class.length / 2))
    transfer_class := self.transfer_class.take (3 * (self.transfer_class.length / 3)) }

/-- Modelled from the spec: the `Protocol` enum
(`src/commands/dev/protocol.rs`) is not in the excerpt.  The spec's §4.2
and the flag help text describe exactly two protocols, `http` and
`https`. -/
inductive Protocol where
  | Http : Protocol
  | Https : Protocol
deriving DecidableEq

/-- Modelled from the spec: the `Host` type
(`src/commands/dev/server_config/host.rs`) is not in the excerpt.  The spec
describes the resolved upstream host only as a host value built from a URL
string, so a `Host` is modelled as that string. -/
structure Host where
  url : String
deriving DecidableEq

/-- Modelled from the spec: `Host::new(url, secure_by_default)` is not in
the excerpt; per the spec the resolver simply adopts the given host, so it
is modelled as wrapping the URL (its fallibility in the source is kept in
the type). -/
def Host.new (url : String) (_secure_by_default : Bool) : Except String Host :=
  Except.ok { url := url }

/-- The resolved local dev-server configuration
(`src/commands/dev/server_config/mod.rs`).  The listening address is the
socket's reported local address, modelled as a string. -/
structure ServerConfig where
  host : Host
  listening_address : String
deriving DecidableEq

/-- `ServerConfig::new` from `src/commands/dev/server_config/mod.rs`.
The OS-level `TcpListener::bind` is abstracted as a function from the
attempted address string to `Option` of the bound socket's local address;
`none` models a bind failure, upon which the source bails with the message
below. -/
def ServerConfig.new (bind : String → Option String)
    (host : Option String) (ip : Option String) (port : Option Nat)
    (upstream_protocol : Protocol) : Except String ServerConfig := do
  let ip := ip.getD "127.0.0.1"
  let port := port.getD 8787
  let addr := ip ++ ":" ++ toString port
  let listening_address ← match bind addr with
    | some sockaddr => Except.ok sockaddr
    | none => Except.error (addr ++ " is unavailable, try binding to another address with the --port and --ip flags, or stop other `wrangler dev` processes.")
  let host ← match host with
    | some h => Host.new h false
    | none =>
        Host.new
          (match upstream_protocol with
            | Protocol.Http => "http://tutorial.cloudflareworkers.com"
            | Protocol.Https => "https://tutorial.cloudflareworkers.com")
          true
  return { host := host, listening_address := listening_address }

theorem mapM_renameOfChunk :
    ∀ l : List String,
      (chunksExact2 l).mapM renameOfChunk = Except.ok (renamePairs l)
  | [] => rfl
  | [_] => rfl
  | a :: b :: rest => by
      rw [show chunksExact2 (a :: b :: rest) = [a, b] :: chunksExact2 rest from rfl,
        List.mapM_cons, mapM_renameOfChunk rest]
      rfl

theorem mapM_transferOfChunk :
    ∀ l : List String,
      (chunksExact3 l).mapM transferOfChunk = Except.ok (transferTriples l)
  | [] => rfl
  | [_] => rfl
  | [_, _] => rfl
  | a :: b :: c :: rest => by
      rw [show chunksExact3 (a :: b :: c :: rest) = [a, b, c] :: chunksExact3 rest from rfl,
        List.mapM_cons, mapM_transferOfChunk rest]
      rfl

/-- `into_migrations` never reaches a panic arm and returns `compilePure`. -/
theorem into_migrations_ok (self : AdhocMigration) :
    self.into_migrations = Except.ok (compilePure self) := by
  unfold AdhocMigration.into_migrations compilePure
  rw [mapM_renameOfChunk, mapM_transferOfChunk]
  simp only [Bind.bind, Except.bind]
  split_ifs <;> rfl

example :
    AdhocMigration.into_migrations
      { new_class := ["newA", "newB"], delete_class := ["deleteA"],
        rename_class := ["renameFromA", "renameToA"],
        transfer_class := ["tScriptA", "tFromA", "tToA"],
        old_tag := some "oldTag", new_tag := some "newTag" } =
    Except.ok (some (Migrations.Adhoc MigrationTag.Unknown (some "oldTag")
      (some "newTag")
      (some { durable_objects :=
        { new_classes := ["newA", "newB"], deleted_classes := ["deleteA"],
          renamed_classes := [{ «from» := "renameFromA", «to» := "renameToA" }],
          transferred_classes :=
            [{ «from» := "tFromA", from_script := "tScriptA", «to» := "tToA" }] } }))) := by
  rfl

theorem renamePairs_length :
    ∀ l : List String, (renamePairs l).length = l.length / 2
  | [] => rfl
  | [_] => by simp [renamePairs]
  | f :: t :: rest => by
      simp only [renamePairs, List.length_cons, renamePairs_length rest]
      omega

theorem transferTriples_length :
    ∀ l : List String, (transferTriples l).length = l.length / 3
  | [] => rfl
  | [_] => by simp [transferTriples]
  | [_, _] => by simp [transferTriples]
  | fs :: f :: t :: rest => by
      simp only [transferTriples, List.length_cons, transferTriples_length rest]
      omega

theorem renamePairs_getElem? :
    ∀ (l : List String) (i : Nat) (f t : String),
      l[2 * i]? = some f → l[2 * i + 1]? = some t →
      (renamePairs l)[i]? = some { «from» := f, «to» := t }
  | [], i, f, t, hf, _ => by simp at hf
  | [a], i, f, t, hf, ht => by
      have h1 := (List.getElem?_eq_some.mp hf).1
      have h2 := (List.getElem?_eq_some.mp ht).1
      simp only [List.length_cons, List.length_nil] at h1 h2
      omega
  | a :: b :: rest, 0, f, t, hf, ht => by
      simp only [Nat.mul_zero, List.getElem?_cons_zero, Nat.zero_add,
        List.getElem?_cons_succ, Option.some.injEq] at hf ht
      simp [renamePairs, hf, ht]
  | a :: b :: rest, j + 1, f, t, hf, ht => by
      have e1 : 2 * (j + 1) = 2 * j + 1 + 1 := by omega
      have e2 : 2 * (j + 1) + 1 = 2 * j + 1 + 1 + 1 := by omega
      rw [e1, List.getElem?_cons_succ, List.getElem?_cons_succ] at hf
      rw [e2, List.getElem?_cons_succ, List.getElem?_cons_succ] at ht
      simpa [renamePairs] using renamePairs_getElem? rest j f t hf ht

theorem transferTriples_getElem? :
    ∀ (l : List String) (i : Nat) (fs f t : String),
      l[3 * i]? = some fs → l[3 * i + 1]? = some f → l[3 * i + 2]? = some t →
      (transferTriples l)[i]? =
        some { «from» := f, from_script := fs, «to» := t }
  | [], i, fs, f, t, hfs, _, _ => by simp at hfs
  | [a], i, fs, f, t, hfs, hf, ht => by
      have h1 := (List.getElem?_eq_some.mp hfs).1
      have h2 := (List.getElem?_eq_some.mp hf).1
      simp only [List.length_cons, List.length_nil] at h1 h2
      omega
  | [a, b], i, fs, f, t, hfs, hf, ht => by
      have h1 := (List.getElem?_eq_some.mp hfs).1
      have h3 := (List.getElem?_eq_some.mp ht).1
      simp only [List.length_cons, List.length_nil] at h1 h3
      omega
  | a :: b :: c :: rest, 0, fs, f, t, hfs, hf, ht => by
      simp only [Nat.mul_zero, List.getElem?_cons_zero, Nat.zero_add,
        List.getElem?_cons_succ, Option.some.injEq] at hfs hf ht
      simp [transferTriples, hfs, hf, ht]
  | a :: b :: c :: rest, j + 1, fs, f, t, hfs, hf, ht => by
      have e1 : 3 * (j + 1) = 3 * j + 1 + 1 + 1 := by omega
      have e2 : 3 * (j + 1) + 1 = 3 * j + 1 + 1 + 1 + 1 := by omega
      have e3 : 3 * (j + 1) + 2 = 3 * j + 2 + 1 + 1 + 1 := by omega
      rw [e1, List.getElem?_cons_succ, List.getElem?_cons_succ,
        List.getElem?_cons_succ] at hfs
      rw [e2, List.getElem?_cons_succ, List.getElem?_cons_succ,
        List.getElem?_cons_succ] at hf
      rw [e3, List.getElem?_cons_succ, List.getElem?_cons_succ,
        List.getElem?_cons_succ] at ht
      simpa [transferTriples] using transferTriples_getElem? rest j fs f t hfs hf ht

/-- Case lemma: a fully empty, tag-less input compiles to "no migration". -/
theorem into_migrations_none (self : AdhocMigration)
    (h1 : self.new_class = []) (h2 : self.delete_class = [])
    (h3 : renamePairs self.rename_class = [])
    (h4 : transferTriples self.transfer_class = [])
    (h5 : self.old_tag = none) (h6 : self.new_tag = none) :
    self.into_migrations = Except.ok none := by
  rw [into_migrations_ok]
  simp [compilePure, h1, h2, h3, h4, h5, h6]

/-- Case lemma: if the assembled structural migration is non-empty, the
descriptor is emitted with a populated `migration` field. -/
theorem into_migrations_some_mig (self : AdhocMigration)
    (h : ¬(self.new_class = [] ∧ self.delete_class = [] ∧
      renamePairs self.rename_class = [] ∧ transferTriples self.transfer_class = [])) :
    self.into_migrations = Except.ok (some (Migrations.Adhoc MigrationTag.Unknown
      self.old_tag self.new_tag (some { durable_objects :=
        { new_classes := self.new_class
          deleted_classes := self.delete_class
          renamed_classes := renamePairs self.rename_class
          transferred_classes := transferTriples self.transfer_class } }))) := by
  rw [into_migrations_ok]
  have he : (self.new_class.isEmpty && self.delete_class.isEmpty &&
      (renamePairs self.rename_class).isEmpty &&
      (transferTriples self.transfer_class).isEmpty) = false := by
    by_contra hb
    rw [Bool.not_eq_false] at hb
    simp only [Bool.and_eq_true, List.isEmpty_iff] at hb
    exact h ⟨hb.1.1.1, hb.1.1.2, hb.1.2, hb.2⟩
  simp [compilePure, he]

/-- Case lemma: if the assembled structural migration is empty but a tag is
present, the descriptor is emitted with `migration = none`. -/
theorem into_migrations_tag_only (self : AdhocMigration)
    (h1 : self.new_class = []) (h2 : self.delete_class = [])
    (h3 : renamePairs self.rename_class = [])
    (h4 : transferTriples self.transfer_class = [])
    (h5 : self.old_tag ≠ none ∨ self.new_tag ≠ none) :
    self.into_migrations = Except.ok (some (Migrations.Adhoc MigrationTag.Unknown
      self.old_tag self.new_tag none)) := by
  rw [into_migrations_ok]
  have ht : (self.old_tag.isSome || self.new_tag.isSome) = true := by
    rcases h5 with h | h <;> simp [Option.isSome_iff_ne_none, h]
  simp [compilePure, h1, h2, h3, h4]
  rcases h5 with h | h <;> simp [Option.isSome_iff_ne_none, h]

theorem renamePairs_take :
    ∀ l : List String,
      renamePairs (l.take (2 * (l.length / 2))) = renamePairs l
  | [] => rfl
  | [_] => by simp [renamePairs]
  | f :: t :: rest => by
      have h : 2 * ((f :: t :: rest).length / 2) = 2 * (rest.length / 2) + 1 + 1 := by
        simp only [List.length_cons]
        omega
      rw [h, List.take_succ_cons, List.take_succ_cons]
      simp [renamePairs, renamePairs_take rest]

theorem transferTriples_take :
    ∀ l : List String,
      transferTriples (l.take (3 * (l.length / 3))) = transferTriples l
  | [] => rfl
  | [_] => by simp [transferTriples]
  | [_, _] => by simp [transferTriples]
  | fs :: f :: t :: rest => by
      have h : 3 * ((fs :: f :: t :: rest).length / 3) =
          3 * (rest.length / 3) + 1 + 1 + 1 := by
        simp only [List.length_cons]
        omega
      rw [h, List.take_succ_cons, List.take_succ_cons, List.take_succ_cons]
      simp [transferTriples, transferTriples_take rest]

/-- C1: `into_migrations` returns a descriptor iff the assembled structural
migration is non-empty or `old_tag` or `new_tag` is present; on an input
whose four class lists are empty and whose tags are both absent it returns
nothing. -/
theorem c1_emit_iff (self : AdhocMigration) :
    ((∃ d, self.into_migrations = Except.ok (some d)) ↔
      (¬(self.new_class = [] ∧ self.delete_class = [] ∧
          renamePairs self.rename_class = [] ∧
          transferTriples self.transfer_class = []) ∨
        self.old_tag ≠ none ∨ self.new_tag ≠ none)) ∧
    (self.new_class = [] ∧ self.delete_class = [] ∧ self.rename_class = [] ∧
        self.transfer_class = [] ∧ self.old_tag = none ∧ self.new_tag = none →
      self.into_migrations = Except.ok none) := by
  constructor
  · constructor
    · rintro ⟨d, hd⟩
      by_contra hcon
      push_neg at hcon
      obtain ⟨hstruct, hold, hnew⟩ := hcon
      rw [into_migrations_none self hstruct.1 hstruct.2.1 hstruct.2.2.1
        hstruct.2.2.2 hold hnew] at hd
      simp at hd
    · intro h
      by_cases hstruct : self.new_class = [] ∧ self.delete_class = [] ∧
        renamePairs self.rename_class = [] ∧ transferTriples self.transfer_class = []
      · have htag : self.old_tag ≠ none ∨ self.new_tag ≠ none := by tauto
        exact ⟨_, into_migrations_tag_only self hstruct.1 hstruct.2.1
          hstruct.2.2.1 hstruct.2.2.2 htag⟩
      · exact ⟨_, into_migrations_some_mig self hstruct⟩
  · rintro ⟨h1, h2, h3, h4, h5, h6⟩
    exact into_migrations_none self h1 h2 (by rw [h3]; rfl) (by rw [h4]; rfl) h5 h6

/-- Witness for C1 at a concrete input: one new class forces a descriptor. -/
theorem c1_emit_iff_witness :
    ∃ d, AdhocMigration.into_migrations
      { new_class := ["n"], delete_class := [], rename_class := [],
        transfer_class := [], old_tag := none, new_tag := none } =
      Except.ok (some d) :=
  (c1_emit_iff _).1.mpr (Or.inl (by simp))

/-- Counterexample to C2: on an input with an odd rename list and a
transfer list of length 4, `into_migrations` does not abort; it silently
drops the trailing "c" and "z" and builds the migration from the remaining
complete groups. -/
theorem c2_counterexample :
    AdhocMigration.into_migrations
      { new_class := [], delete_class := [],
        rename_class := ["a", "b", "c"],
        transfer_class := ["s", "x", "y", "z"],
        old_tag := none, new_tag := none } =
      Except.ok (some (Migrations.Adhoc MigrationTag.Unknown none none
        (some { durable_objects :=
          { new_classes := [], deleted_classes := [],
            renamed_classes := [{ «from» := "a", «to» := "b" }],
            transferred_classes :=
              [{ «from» := "x", from_script := "s", «to» := "y" }] } }))) := by
  rfl

/-- C2 as amended: for every input, also one with an odd rename list or a
transfer list whose length is not divisible by 3, `into_migrations` returns
normally (no abort/panic), and its result is the same as on the input with
the trailing partial groups removed: the partial groups are silently
dropped. -/
theorem c2_amended_silent_truncation (self : AdhocMigration) :
    (∃ out, self.into_migrations = Except.ok out) ∧
    self.into_migrations = (truncateToCompleteGroups self).into_migrations := by
  refine ⟨⟨_, into_migrations_ok self⟩, ?_⟩
  rw [into_migrations_ok, into_migrations_ok]
  unfold compilePure truncateToCompleteGroups
  simp only [renamePairs_take, transferTriples_take]

/-- C3: for an even-length, non-empty rename list `R`, the emitted
descriptor's migration has exactly `R.length / 2` rename entries, in input
order, the i-th pairing `R[2i]` with `R[2i+1]`. -/
theorem c3_rename_pairing (self : AdhocMigration)
    (hev : self.rename_class.length % 2 = 0) (hne : self.rename_class ≠ []) :
    ∃ m : Migration,
      self.into_migrations = Except.ok (some (Migrations.Adhoc
        MigrationTag.Unknown self.old_tag self.new_tag (some m))) ∧
      m.durable_objects.renamed_classes.length = self.rename_class.length / 2 ∧
      ∀ i : Nat, i < self.rename_class.length / 2 →
        ∃ f t : String,
          self.rename_class[2 * i]? = some f ∧
          self.rename_class[2 * i + 1]? = some t ∧
          m.durable_objects.renamed_classes[i]? =
            some { «from» := f, «to» := t } := by
  have hlen0 : self.rename_class.length ≠ 0 := by
    simpa [List.length_eq_zero] using hne
  have hrp : renamePairs self.rename_class ≠ [] := by
    intro h0
    have hl := renamePairs_length self.rename_class
    rw [h0] at hl
    simp only [List.length_nil] at hl
    omega
  refine ⟨_, into_migrations_some_mig self (by tauto), renamePairs_length _, ?_⟩
  intro i hi
  have h2i : 2 * i < self.rename_class.length := by omega
  have h2i1 : 2 * i + 1 < self.rename_class.length := by omega
  exact ⟨self.rename_class[2 * i], self.rename_class[2 * i + 1],
    List.getElem?_eq_getElem h2i, List.getElem?_eq_getElem h2i1,
    renamePairs_getElem? _ i _ _ (List.getElem?_eq_getElem h2i)
      (List.getElem?_eq_getElem h2i1)⟩

/-- Witness for C3 at the concrete rename list ["a","b","c","d"]. -/
theorem c3_rename_pairing_witness :
    (["a", "b", "c", "d"] : List String).length % 2 = 0 ∧
    (["a", "b", "c", "d"] : List String) ≠ [] ∧
    ∃ m : Migration,
      AdhocMigration.into_migrations
        { new_class := [], delete_class := [],
          rename_class := ["a", "b", "c", "d"], transfer_class := [],
          old_tag := none, new_tag := none } =
        Except.ok (some (Migrations.Adhoc MigrationTag.Unknown none none (some m))) ∧
      m.durable_objects.renamed_classes.length = (["a", "b", "c", "d"] : List String).length / 2 ∧
      ∀ i : Nat, i < (["a", "b", "c", "d"] : List String).length / 2 →
        ∃ f t : String,
          (["a", "b", "c", "d"] : List String)[2 * i]? = some f ∧
          (["a", "b", "c", "d"] : List String)[2 * i + 1]? = some t ∧
          m.durable_objects.renamed_classes[i]? =
            some { «from» := f, «to» := t } :=
  ⟨rfl, by simp,
    c3_rename_pairing
      { new_class := [], delete_class := [],
        rename_class := ["a", "b", "c", "d"], transfer_class := [],
        old_tag := none, new_tag := none } rfl (by simp)⟩

/-- C4: for a transfer list `T` whose length is divisible by 3 and
non-empty, the emitted descriptor's migration has exactly `T.length / 3`
transfer entries, in input order, the i-th combining `T[3i]` (from_script),
`T[3i+1]` (from) and `T[3i+2]` (to). -/
theorem c4_transfer_tripling (self : AdhocMigration)
    (hdiv : self.transfer_class.length % 3 = 0) (hne : self.transfer_class ≠ []) :
    ∃ m : Migration,
      self.into_migrations = Except.ok (some (Migrations.Adhoc
        MigrationTag.Unknown self.old_tag self.new_tag (some m))) ∧
      m.durable_objects.transferred_classes.length = self.transfer_class.length / 3 ∧
      ∀ i : Nat, i < self.transfer_class.length / 3 →
        ∃ fs f t : String,
          self.transfer_class[3 * i]? = some fs ∧
          self.transfer_class[3 * i + 1]? = some f ∧
          self.transfer_class[3 * i + 2]? = some t ∧
          m.durable_objects.transferred_classes[i]? =
            some { «from» := f, from_script := fs, «to» := t } := by
  have hlen0 : self.transfer_class.length ≠ 0 := by
    simpa [List.length_eq_zero] using hne
  have htt : transferTriples self.transfer_class ≠ [] := by
    intro h0
    have hl := transferTriples_length self.transfer_class
    rw [h0] at hl
    simp only [List.length_nil] at hl
    omega
  refine ⟨_, into_migrations_some_mig self (by tauto), transferTriples_length _, ?_⟩
  intro i hi
  have h3i : 3 * i < self.transfer_class.length := by omega
  have h3i1 : 3 * i + 1 < self.transfer_class.length := by omega
  have h3i2 : 3 * i + 2 < self.transfer_class.length := by omega
  exact ⟨self.transfer_class[3 * i], self.transfer_class[3 * i + 1],
    self.transfer_class[3 * i + 2],
    List.getElem?_eq_getElem h3i, List.getElem?_eq_getElem h3i1,
    List.getElem?_eq_getElem h3i2,
    transferTriples_getElem? _ i _ _ _ (List.getElem?_eq_getElem h3i)
      (List.getElem?_eq_getElem h3i1) (List.getElem?_eq_getElem h3i2)⟩

/-- Witness for C4 at the concrete transfer list ["s1","x","y","s2","m","n"]. -/
theorem c4_transfer_tripling_witness :
    (["s1", "x", "y", "s2", "m", "n"] : List String).length % 3 = 0 ∧
    (["s1", "x", "y", "s2", "m", "n"] : List String) ≠ [] ∧
    ∃ m : Migration,
      AdhocMigration.into_migrations
        { new_class := [], delete_class := [], rename_class := [],
          transfer_class := ["s1", "x", "y", "s2", "m", "n"],
          old_tag := none, new_tag := none } =
        Except.ok (some (Migrations.Adhoc MigrationTag.Unknown none none (some m))) ∧
      m.durable_objects.transferred_classes.length =
        (["s1", "x", "y", "s2", "m", "n"] : List String).length / 3 ∧
      ∀ i : Nat, i < (["s1", "x", "y", "s2", "m", "n"] : List String).length / 3 →
        ∃ fs f t : String,
          (["s1", "x", "y", "s2", "m", "n"] : List String)[3 * i]? = some fs ∧
          (["s1", "x", "y", "s2", "m", "n"] : List String)[3 * i + 1]? = some f ∧
          (["s1", "x", "y", "s2", "m", "n"] : List String)[3 * i + 2]? = some t ∧
          m.durable_objects.transferred_classes[i]? =
            some { «from» := f, from_script := fs, «to» := t } :=
  ⟨rfl, by simp,
    c4_transfer_tripling
      { new_class := [], delete_class := [], rename_class := [],
        transfer_class := ["s1", "x", "y", "s2", "m", "n"],
        old_tag := none, new_tag := none } rfl (by simp)⟩

/-- Inversion: any emitted descriptor with a populated `migration` field
carries tag `Unknown`, the input's tags, and the assembled migration, and
that migration is non-empty. -/
theorem into_migrations_some_mig_inv (self : AdhocMigration)
    (t : MigrationTag) (o n : Option String) (m : Migration)
    (h : self.into_migrations =
      Except.ok (some (Migrations.Adhoc t o n (some m)))) :
    t = MigrationTag.Unknown ∧ o = self.old_tag ∧ n = self.new_tag ∧
    m = { durable_objects :=
      { new_classes := self.new_class
        deleted_classes := self.delete_class
        renamed_classes := renamePairs self.rename_class
        transferred_classes := transferTriples self.transfer_class } } ∧
    ¬(self.new_class = [] ∧ self.delete_class = [] ∧
      renamePairs self.rename_class = [] ∧
      transferTriples self.transfer_class = []) := by
  rw [into_migrations_ok] at h
  simp only [compilePure] at h
  split_ifs at h with hA hB
  · simp only [Except.ok.injEq, Option.some.injEq, Migrations.Adhoc.injEq] at h
    obtain ⟨h1, h2, h3, h4⟩ := h
    refine ⟨h1.symm, h2.symm, h3.symm, h4.symm, ?_⟩
    rintro ⟨e1, e2, e3, e4⟩
    rw [e1, e2, e3, e4] at hB
    simp at hB
  · simp at h
  · simp at h

/-- C5: when all four class lists are empty but a tag is present, the
descriptor is emitted with `migration` absent and the tag fields copied
from the input. -/
theorem c5_tag_only_descriptor (self : AdhocMigration)
    (h1 : self.new_class = []) (h2 : self.delete_class = [])
    (h3 : self.rename_class = []) (h4 : self.transfer_class = [])
    (h5 : self.old_tag ≠ none ∨ self.new_tag ≠ none) :
    self.into_migrations = Except.ok (some (Migrations.Adhoc
      MigrationTag.Unknown self.old_tag self.new_tag none)) :=
  into_migrations_tag_only self h1 h2 (by rw [h3]; rfl) (by rw [h4]; rfl) h5

/-- Witness for C5 at a concrete tag-only input. -/
theorem c5_tag_only_descriptor_witness :
    AdhocMigration.into_migrations
      { new_class := [], delete_class := [], rename_class := [],
        transfer_class := [], old_tag := some "t1", new_tag := some "t2" } =
      Except.ok (some (Migrations.Adhoc MigrationTag.Unknown
        (some "t1") (some "t2") none)) :=
  c5_tag_only_descriptor
    { new_class := [], delete_class := [], rename_class := [],
      transfer_class := [], old_tag := some "t1", new_tag := some "t2" }
    rfl rfl rfl rfl (Or.inl (by simp))

/-- C6: a `Migration` wrapper is never created around a fully empty
`DurableObjectsMigration`: whenever the emitted descriptor's `migration`
field is `some m`, at least one of `m`'s four sequences is non-empty. -/
theorem c6_no_empty_wrapper (self : AdhocMigration)
    (t : MigrationTag) (o n : Option String) (m : Migration)
    (h : self.into_migrations =
      Except.ok (some (Migrations.Adhoc t o n (some m)))) :
    ¬(m.durable_objects.new_classes = [] ∧
      m.durable_objects.deleted_classes = [] ∧
      m.durable_objects.renamed_classes = [] ∧
      m.durable_objects.transferred_classes = []) := by
  obtain ⟨-, -, -, hm, hne⟩ := into_migrations_some_mig_inv self t o n m h
  rw [hm]
  simpa using hne

/-- Witness for C6 at a concrete input with one new class. -/
theorem c6_no_empty_wrapper_witness :
    AdhocMigration.into_migrations
      { new_class := ["n"], delete_class := [], rename_class := [],
        transfer_class := [], old_tag := none, new_tag := none } =
      Except.ok (some (Migrations.Adhoc MigrationTag.Unknown none none
        (some { durable_objects :=
          { new_classes := ["n"], deleted_classes := [],
            renamed_classes := [], transferred_classes := [] } }))) ∧
    ¬((["n"] : List String) = [] ∧ ([] : List String) = [] ∧
      ([] : List RenameClass) = [] ∧ ([] : List TransferClass) = []) :=
  ⟨rfl, c6_no_empty_wrapper
    { new_class := ["n"], delete_class := [], rename_class := [],
      transfer_class := [], old_tag := none, new_tag := none }
    MigrationTag.Unknown none none
    { durable_objects :=
      { new_classes := ["n"], deleted_classes := [],
        renamed_classes := [], transferred_classes := [] } } rfl⟩

/-- Counterexample to C7: an input that supplies `old_tag` still gets
`script_tag = Unknown` in its compiled descriptor. -/
theorem c7_counterexample :
    AdhocMigration.into_migrations
      { new_class := [], delete_class := [], rename_class := [],
        transfer_class := [], old_tag := some "t1", new_tag := none } =
      Except.ok (some (Migrations.Adhoc MigrationTag.Unknown
        (some "t1") none none)) := by
  rfl

/-- C7 as amended: every compiled descriptor has `script_tag = Unknown`,
whether or not `old_tag` was supplied; a supplied `old_tag` is carried in
the `provided_old_tag` field instead. -/
theorem c7_amended_script_tag_always_unknown (self : AdhocMigration)
    (t : MigrationTag) (o n : Option String) (mig : Option Migration)
    (h : self.into_migrations =
      Except.ok (some (Migrations.Adhoc t o n mig))) :
    t = MigrationTag.Unknown ∧ o = self.old_tag ∧ n = self.new_tag := by
  rw [into_migrations_ok] at h
  simp only [compilePure] at h
  split_ifs at h with hA hB
  · simp only [Except.ok.injEq, Option.some.injEq, Migrations.Adhoc.injEq] at h
    exact ⟨h.1.symm, h.2.1.symm, h.2.2.1.symm⟩
  · simp only [Except.ok.injEq, Option.some.injEq, Migrations.Adhoc.injEq] at h
    exact ⟨h.1.symm, h.2.1.symm, h.2.2.1.symm⟩
  · simp at h

/-- Witness for C7's amended claim at a concrete input with both tags. -/
theorem c7_amended_script_tag_always_unknown_witness :
    MigrationTag.Unknown = MigrationTag.Unknown ∧
    (some "o1" : Option String) = some "o1" ∧
    (some "n1" : Option String) = some "n1" :=
  c7_amended_script_tag_always_unknown
    { new_class := ["w"], delete_class := [], rename_class := [],
      transfer_class := [], old_tag := some "o1", new_tag := some "n1" }
    MigrationTag.Unknown (some "o1") (some "n1")
    (some { durable_objects :=
      { new_classes := ["w"], deleted_classes := [],
        renamed_classes := [], transferred_classes := [] } }) rfl

/-- C8: in any emitted descriptor carrying a migration, `new_classes` and
`deleted_classes` are the input's lists, verbatim. -/
theorem c8_verbatim_lists (self : AdhocMigration)
    (t : MigrationTag) (o n : Option String) (m : Migration)
    (h : self.into_migrations =
      Except.ok (some (Migrations.Adhoc t o n (some m)))) :
    m.durable_objects.new_classes = self.new_class ∧
    m.durable_objects.deleted_classes = self.delete_class := by
  obtain ⟨-, -, -, hm, -⟩ := into_migrations_some_mig_inv self t o n m h
  rw [hm]
  exact ⟨rfl, rfl⟩

/-- Witness for C8 at a concrete input. -/
theorem c8_verbatim_lists_witness :
    (["p", "p"] : List String) = ["p", "p"] ∧
    (["q"] : List String) = ["q"] :=
  c8_verbatim_lists
    { new_class := ["p", "p"], delete_class := ["q"], rename_class := [],
      transfer_class := [], old_tag := none, new_tag := none }
    MigrationTag.Unknown none none
    { durable_objects :=
      { new_classes := ["p", "p"], deleted_classes := ["q"],
        renamed_classes := [], transferred_classes := [] } } rfl

/-- C9: `into_migrations` is total and never panics: on every input,
well-formed or not, it returns normally (the `unreachable!` arms, embedded
as `Except.error`, are never reached). -/
theorem c9_total_no_panic (self : AdhocMigration) :
    ∃ out, self.into_migrations = Except.ok out :=
  ⟨compilePure self, into_migrations_ok self⟩

/-- C10: with no explicit host, a successful bind on (`ip` or `127.0.0.1`,
`port` or `8787`) resolves the upstream host to the protocol-matching
tutorial URL; a failed bind yields a fatal error whose message names the
exact address attempted. -/
theorem c10_default_host_resolution (bind : String → Option String)
    (ip : Option String) (port : Option Nat) (proto : Protocol) :
    (∀ la, bind (ip.getD "127.0.0.1" ++ ":" ++ toString (port.getD 8787)) = some la →
      ServerConfig.new bind none ip port proto = Except.ok
        { host :=
            { url := match proto with
                | Protocol.Http => "http://tutorial.cloudflareworkers.com"
                | Protocol.Https => "https://tutorial.cloudflareworkers.com" },
          listening_address := la }) ∧
    (bind (ip.getD "127.0.0.1" ++ ":" ++ toString (port.getD 8787)) = none →
      ServerConfig.new bind none ip port proto = Except.error
        (ip.getD "127.0.0.1" ++ ":" ++ toString (port.getD 8787) ++
          " is unavailable, try binding to another address with the --port and --ip flags, or stop other `wrangler dev` processes.")) := by
  constructor
  · intro la hla
    simp only [ServerConfig.new]
    rw [hla]
    cases proto <;> rfl
  · intro hnone
    simp only [ServerConfig.new]
    rw [hnone]
    rfl

/-- Witness for C10: a concrete always-succeeding bind with the https
protocol resolves to the https tutorial host, and a concrete failing bind
reports the attempted default address. -/
theorem c10_default_host_resolution_witness :
    ServerConfig.new (fun _ => some "127.0.0.1:8787") none none none
        Protocol.Https =
      Except.ok { host := { url := "https://tutorial.cloudflareworkers.com" },
                  listening_address := "127.0.0.1:8787" } ∧
    ServerConfig.new (fun _ => none) none none none Protocol.Https =
      Except.error "127.0.0.1:8787 is unavailable, try binding to another address with the --port and --ip flags, or stop other `wrangler dev` processes." :=
  ⟨(c10_default_host_resolution (fun _ => some "127.0.0.1:8787") none none
      Protocol.Https).1 "127.0.0.1:8787" rfl,
    (c10_default_host_resolution (fun _ => none) none none Protocol.Https).2 rfl⟩
